import Mathlib

/-!
Shallow embedding of the blob-triggered image-annotation pipeline in
src/function_app.py (function blob_trigger_function), together with
theorems checking the natural-language specification against it.

Modelling conventions:
* Machine-level JSON values are modelled by the inductive Json below;
  json.dumps with a fixed indent is a deterministic injective encoding of
  such a value, so records are compared at the Json level.
* Python datetime.utcnow() values are modelled by DateTime (microsecond
  resolution); isoformat and strftime of the formats used by the code are
  modelled explicitly.  Successive utcnow() calls of one invocation are an
  oracle clock : Nat -> DateTime indexed by call order (processed_at = 0,
  archived_at = 1, archive key = 2).
* PIL images are modelled by a mode tag plus a pixel grid with rational
  channel values; channel range is 0..255 and the alpha component is the
  fraction in [0,1].  The modes listed are the ones PIL decoders produce
  from image bytes; of those, RGBA and LA are the ones carrying an alpha
  channel (the last band of image.split()).  PIL paste with an alpha mask
  onto a background blends out = fg * a + bg * (1 - a) per channel.
  JPEG saving accepts modes without alpha (1, L, RGB, CMYK) and raises
  for the others.
* External effects (BlobServiceClient.from_connection_string, credential
  parsing, Image.open, the Vision API execute() call) are oracles: an
  Except value for each call site, supplied per invocation.
* The blob store is an association list of (container, blob name, content);
  upload_blob with overwrite=False raises when the blob already exists.
* os.getenv returns an Option String; Python truthiness of the result is
  false exactly for None and the empty string.
-/

/-- JSON values, as produced by the function and stored in blobs. -/
inductive Json where
  | str : String → Json
  | num : ℚ → Json
  | arr : List Json → Json
  | obj : List (String × Json) → Json

/-- Field names of a JSON object, in insertion order (Python dicts keep it). -/
def Json.fieldNames : Json → List String
  | .obj fs => fs.map (fun f => f.1)
  | _ => []

/-- A UTC timestamp as Python datetime.utcnow() returns it. -/
structure DateTime where
  year : Nat
  month : Nat
  day : Nat
  hour : Nat
  minute : Nat
  second : Nat
  microsecond : Nat
deriving DecidableEq

/-- Left-pad the decimal form of a number with zeros to a given width. -/
def padNum (w n : Nat) : String :=
  let s := toString n
  String.mk (List.replicate (w - s.length) '0') ++ s

/-- Python datetime.isoformat(): YYYY-MM-DDTHH:MM:SS plus .ffffff when the
microsecond field is nonzero. -/
def DateTime.isoformat (t : DateTime) : String :=
  padNum 4 t.year ++ "-" ++ padNum 2 t.month ++ "-" ++ padNum 2 t.day ++ "T" ++
  padNum 2 t.hour ++ ":" ++ padNum 2 t.minute ++ ":" ++ padNum 2 t.second ++
  (if t.microsecond = 0 then "" else "." ++ padNum 6 t.microsecond)

/-- Python datetime.strftime of the format string used for archive keys
(%Y%m%d%H%M%S): second resolution, the microsecond field is dropped. -/
def DateTime.strftimeCompact (t : DateTime) : String :=
  padNum 4 t.year ++ padNum 2 t.month ++ padNum 2 t.day ++
  padNum 2 t.hour ++ padNum 2 t.minute ++ padNum 2 t.second

/-- The environment variables the function reads (os.getenv results). -/
structure Env where
  connection_string : Option String
  google_credentials_file : Option String
  google_credentials_b64 : Option String
  google_scopes : Option String

/-- Python truthiness of an os.getenv result: None and "" are falsy. -/
def truthy : Option String → Bool
  | none => false
  | some s => !(s == "")

/-- The triggering blob: name, reported length, and the bytes read(). -/
structure Blob where
  name : String
  length : Nat
  data : List Nat

/-- One hit of textAnnotations in a Vision API response entry. -/
structure TextHit where
  description : String
deriving DecidableEq

/-- One hit of labelAnnotations in a Vision API response entry. -/
structure LabelHit where
  description : String
  score : ℚ
deriving DecidableEq

/-- One element of the responses list of a Vision API reply; a missing
textAnnotations or labelAnnotations key is the empty list (dict.get default). -/
structure VisionEntry where
  textAnnotations : List TextHit
  labelAnnotations : List LabelHit
deriving DecidableEq

/-- The top-level Vision API reply. -/
structure VisionReply where
  responses : List VisionEntry
deriving DecidableEq

/-- PIL image modes that PIL decoders produce from image bytes. -/
inductive PILMode where
  | one | L | LA | P | RGB | RGBA | CMYK | I | F
deriving DecidableEq

/-- Modes whose last band is an alpha channel. -/
def PILMode.hasAlpha : PILMode → Bool
  | .RGBA => true
  | .LA => true
  | _ => false

/-- Modes PIL can write as JPEG (no alpha, no palette). -/
def PILMode.jpegWritable : PILMode → Bool
  | .one => true
  | .L => true
  | .RGB => true
  | .CMYK => true
  | _ => false

/-- One pixel: red, green, blue channel values in 0..255 (for gray modes the
three coincide) and alpha as a fraction in [0,1]; alpha is 1 in modes without
an alpha channel. -/
structure Pixel where
  r : ℚ
  g : ℚ
  b : ℚ
  a : ℚ
deriving DecidableEq

/-- A decoded PIL image: mode tag plus pixel grid. -/
structure PILImage where
  mode : PILMode
  width : Nat
  height : Nat
  px : Nat → Nat → Pixel

/-- PIL paste of a pixel onto an opaque white RGB background through its own
alpha band as mask: out = fg * a + white * (1 - a) per channel, alpha gone. -/
def compositeOnWhite (p : Pixel) : Pixel :=
  ⟨p.r * p.a + 255 * (1 - p.a),
   p.g * p.a + 255 * (1 - p.a),
   p.b * p.a + 255 * (1 - p.a),
   1⟩

/-- Lines 115-118 of function_app.py: if image.mode is RGBA or LA, paste the
image onto a white RGB background using its alpha band as mask; otherwise the
image is left unchanged. -/
def flatten (img : PILImage) : PILImage :=
  if img.mode = .RGBA ∨ img.mode = .LA then
    { mode := .RGB
      width := img.width
      height := img.height
      px := fun x y => compositeOnWhite (img.px x y) }
  else img

/-- Lines 121-122 of function_app.py: image.save(buffered, format="JPEG",
quality=95).  PIL raises OSError for modes JPEG cannot hold; on success the
saved frame has the same mode and pixels (the quality parameter controls
lossy size/fidelity, modelled as exact). -/
def jpegSave (img : PILImage) (_quality : Nat) : Except String PILImage :=
  if img.mode.jpegWritable then .ok img
  else .error "cannot write this mode as JPEG"

/-- The normalization step of the pipeline: alpha flattening followed by the
JPEG save. -/
def normalizeImage (img : PILImage) (quality : Nat) : Except String PILImage :=
  jpegSave (flatten img) quality

/-- Lines 154-162 of function_app.py: the parsed record built from the first
response entry, the blob name and the utcnow() of the invocation. -/
def parsedData (e : VisionEntry) (name : String) (t : DateTime) : Json :=
  .obj
    [("text_annotations",
      .arr (e.textAnnotations.map (fun a => .obj [("text", .str a.description)]))),
     ("label_annotations",
      .arr (e.labelAnnotations.map
        (fun l => .obj [("label", .str l.description), ("confidence", .num l.score)]))),
     ("processed_image", .str name),
     ("processed_at", .str t.isoformat)]

/-- Lines 177-178 of function_app.py: archive_data = parsed_data.copy() then
archive_data["archived_at"] = utcnow().isoformat() — the shallow copy with a
fifth key appended. -/
def archiveData (rec : Json) (t : DateTime) : Json :=
  match rec with
  | .obj fs => .obj (fs ++ [("archived_at", .str t.isoformat)])
  | j => j

/-- The blob store: (container, blob name, content) entries. -/
abbrev Store := List (String × String × Json)

/-- Whether a store entry is the blob of the given container and name. -/
def keyMatch (c n : String) (e : String × String × Json) : Bool :=
  e.1 == c && e.2.1 == n

/-- The content currently stored for a container/name pair, if any
(first matching entry). -/
def lookupStore : Store → String → String → Option Json
  | [], _, _ => none
  | e :: t, c, n => if keyMatch c n e then some e.2.2 else lookupStore t c n

/-- Replace the content of an existing blob in place. -/
def setStore : Store → String → String → Json → Store
  | [], _, _, _ => []
  | e :: t, c, n, j =>
      (if keyMatch c n e then (c, n, j) else e) :: setStore t c n j

/-- BlobClient.upload_blob: with overwrite it replaces or creates; without,
an existing blob raises ResourceExistsError. -/
def uploadBlob (s : Store) (c n : String) (content : Json) (overwrite : Bool) :
    Except String Store :=
  match lookupStore s c n with
  | some _ =>
      if overwrite then .ok (setStore s c n content)
      else .error "ResourceExistsError"
  | none => .ok (s ++ [(c, n, content)])

/-- Which credential source the function attempted (line 81's branch). -/
inductive CredSource where
  | inline
  | file
deriving DecidableEq

/-- Per-invocation results of the external calls the function makes, in
source order: BlobServiceClient.from_connection_string (line 70), decoding
plus parsing of the base64 credentials (lines 83-87), reading plus parsing of
the credentials file (lines 91-93), Image.open of the blob bytes (line 109),
and the Vision API annotate(...).execute() call (line 140).  The clock gives
the successive datetime.utcnow() values (lines 161, 178, 181). -/
structure Oracles where
  blobServiceInit : Except String Unit
  b64CredsResult : Except String Unit
  fileCredsResult : Except String Unit
  decodeImage : Except String PILImage
  visionResult : Except String VisionReply
  clock : Nat → DateTime

/-- The errors the function can raise, one constructor per raise site. -/
inductive PipeError where
  | missingConnectionString
  | missingCredentials
  | missingScopes
  | emptyBlob
  | blobServiceError : String → PipeError
  | credentialError : String → PipeError
  | decodeError : String → PipeError
  | saveError : String → PipeError
  | visionError : String → PipeError
  | emptyVisionResponse
  | uploadError : String → PipeError
deriving DecidableEq

/-- The raise sites that raise Python ValueError (caught and logged as a
validation error by the handler at line 193). -/
def PipeError.isValueError : PipeError → Bool
  | .missingConnectionString => true
  | .missingCredentials => true
  | .missingScopes => true
  | .emptyBlob => true
  | .emptyVisionResponse => true
  | _ => false

/-- The configuration-validation errors of lines 51-56. -/
def PipeError.isConfigError : PipeError → Bool
  | .missingConnectionString => true
  | .missingCredentials => true
  | .missingScopes => true
  | _ => false

/-- Outcome of one invocation: the result, whether the Vision API annotate
call was made, which credential source was attempted, the final store, and
the successful uploads in order (container, name, content). -/
structure RunOut where
  result : Except PipeError Unit
  visionCalled : Bool
  credSource : Option CredSource
  store : Store
  uploads : List (String × String × Json)

/-- Lines 102-191 of function_app.py, from reading the blob content onwards:
decode, flatten, JPEG-save, Vision call, empty-responses check, parse, upload
of latest_result.json to the process container with overwrite, then upload of
the timestamped archive copy (no overwrite). -/
def runAfterCreds (blob : Blob) (orc : Oracles) (store0 : Store)
    (cs : Option CredSource) : RunOut :=
  match orc.decodeImage with
  | .error m => ⟨.error (.decodeError m), false, cs, store0, []⟩
  | .ok img =>
    match normalizeImage img 95 with
    | .error m => ⟨.error (.saveError m), false, cs, store0, []⟩
    | .ok _jpeg =>
      match orc.visionResult with
      | .error m => ⟨.error (.visionError m), true, cs, store0, []⟩
      | .ok reply =>
        match reply.responses with
        | [] => ⟨.error .emptyVisionResponse, true, cs, store0, []⟩
        | entry :: _ =>
          match uploadBlob store0 "process" "latest_result.json"
              (parsedData entry blob.name (orc.clock 0)) true with
          | .error m => ⟨.error (.uploadError m), true, cs, store0, []⟩
          | .ok s1 =>
            match uploadBlob s1 "process-archive"
                ("result_" ++ (orc.clock 2).strftimeCompact ++ ".json")
                (archiveData (parsedData entry blob.name (orc.clock 0)) (orc.clock 1))
                false with
            | .error m =>
                ⟨.error (.uploadError m), true, cs, s1,
                 [("process", "latest_result.json",
                   parsedData entry blob.name (orc.clock 0))]⟩
            | .ok s2 =>
                ⟨.ok (), true, cs, s2,
                 [("process", "latest_result.json",
                   parsedData entry blob.name (orc.clock 0)),
                  ("process-archive",
                   "result_" ++ (orc.clock 2).strftimeCompact ++ ".json",
                   archiveData (parsedData entry blob.name (orc.clock 0)) (orc.clock 1))]⟩

/-- Lines 34-100 of function_app.py: environment validation in order
(connection string, credential sources, scopes), the empty-blob check,
blob-service initialization, then the credential branch — the base64 source
whenever its variable is truthy, else the file source — with any exception
propagated.  On failure it reports the error together with the credential
source attempted, if one was. -/
def preStage (env : Env) (blob : Blob) (orc : Oracles) :
    Except (PipeError × Option CredSource) CredSource :=
  if ¬ truthy env.connection_string then
    .error (.missingConnectionString, none)
  else if ¬ (truthy env.google_credentials_file || truthy env.google_credentials_b64) then
    .error (.missingCredentials, none)
  else if ¬ truthy env.google_scopes then
    .error (.missingScopes, none)
  else if blob.length = 0 then
    .error (.emptyBlob, none)
  else
    match orc.blobServiceInit with
    | .error m => .error (.blobServiceError m, none)
    | .ok _ =>
      if truthy env.google_credentials_b64 then
        match orc.b64CredsResult with
        | .error m => .error (.credentialError m, some .inline)
        | .ok _ => .ok .inline
      else
        match orc.fileCredsResult with
        | .error m => .error (.credentialError m, some .file)
        | .ok _ => .ok .file

/-- One whole invocation of blob_trigger_function: the validation and
credential stage, then — when it passed — the processing stage. -/
def run (env : Env) (blob : Blob) (orc : Oracles) (store0 : Store) : RunOut :=
  match preStage env blob orc with
  | .error pe => ⟨.error pe.1, false, pe.2, store0, []⟩
  | .ok cs => runAfterCreds blob orc store0 (some cs)

/-- The content the invocation uploaded to the destination record location
(container process, blob latest_result.json), if it got that far. -/
def publishedContent (o : RunOut) : Option Json :=
  (o.uploads.find? (fun u => u.1 == "process" && u.2.1 == "latest_result.json")).map
    (fun u => u.2.2)

/-- Conditions under which the invocation reaches the Vision API call at
line 140: configuration present, non-empty blob, blob service initialized,
the selected credential source parsed, and the image decoded into a mode the
JPEG save accepts. -/
def ReachesVisionCall (env : Env) (blob : Blob) (orc : Oracles) : Prop :=
  truthy env.connection_string = true ∧
  (truthy env.google_credentials_file || truthy env.google_credentials_b64) = true ∧
  truthy env.google_scopes = true ∧
  blob.length ≠ 0 ∧
  orc.blobServiceInit = .ok () ∧
  (truthy env.google_credentials_b64 = true → orc.b64CredsResult = .ok ()) ∧
  (truthy env.google_credentials_b64 = false → orc.fileCredsResult = .ok ()) ∧
  ∃ img, orc.decodeImage = .ok img ∧ (flatten img).mode.jpegWritable = true

/-! Concrete fixtures used by witnesses and counterexamples. -/

/-- A fixed invocation timestamp. -/
def tFix : DateTime := ⟨2025, 1, 2, 3, 4, 5, 0⟩

/-- A 1x1 opaque RGB image. -/
def imgFix : PILImage := ⟨.RGB, 1, 1, fun _ _ => ⟨10, 20, 30, 1⟩⟩

/-- A 1x1 RGBA image with a half-transparent pixel. -/
def imgAlphaFix : PILImage := ⟨.RGBA, 1, 1, fun _ _ => ⟨102, 0, 255, 1/2⟩⟩

/-- A Vision response entry with one label hit (cat, 0.92) and no text. -/
def entryCat : VisionEntry := ⟨[], [⟨"cat", 0.92⟩]⟩

/-- A Vision response entry with no hits for either feature. -/
def entryNone : VisionEntry := ⟨[], []⟩

/-- Environment with the inline base64 credential source set. -/
def envB64 : Env := ⟨some "conn", none, some "ZXlK", some "scope"⟩

/-- Environment with only the credentials-file source set. -/
def envFileOnly : Env := ⟨some "conn", some "creds.json", none, some "scope"⟩

/-- Environment with both credential sources set. -/
def envBoth : Env := ⟨some "conn", some "creds.json", some "%%%", some "scope"⟩

/-- Environment lacking the scope string. -/
def envNoScopes : Env := ⟨some "conn", some "creds.json", none, none⟩

/-- A non-empty triggering blob. -/
def blobFix : Blob := ⟨"image/photo.png", 100, [137, 80, 78, 71]⟩

/-- An empty triggering blob. -/
def blobEmpty : Blob := ⟨"image/empty.png", 0, []⟩

/-- Oracles where everything succeeds and the service returns the cat label. -/
def orcFix : Oracles := ⟨.ok (), .ok (), .ok (), .ok imgFix, .ok ⟨[entryCat]⟩, fun _ => tFix⟩

/-- Oracles where the service returns one entry with no hits at all. -/
def orcNoHits : Oracles := ⟨.ok (), .ok (), .ok (), .ok imgFix, .ok ⟨[entryNone]⟩, fun _ => tFix⟩

/-- Oracles where decoding or parsing the inline credentials fails while the
file source would succeed. -/
def orcBadInline : Oracles :=
  ⟨.ok (), .error "Invalid base64-encoded string", .ok (), .ok imgFix,
   .ok ⟨[entryCat]⟩, fun _ => tFix⟩

/-- Oracles where the remote Vision call raises. -/
def orcVisionErr : Oracles :=
  ⟨.ok (), .ok (), .ok (), .ok imgFix, .error "503 Service Unavailable", fun _ => tFix⟩

/-- Oracles where the Vision reply has an empty responses list. -/
def orcEmptyReplies : Oracles :=
  ⟨.ok (), .ok (), .ok (), .ok imgFix, .ok ⟨[]⟩, fun _ => tFix⟩

/-- A store whose destination record location already holds a record R1. -/
def destR1 : Store := [("process", "latest_result.json", Json.str "R1")]

/-! Store lemmas shared by several claim proofs. -/

/-- A key pair different from (c2, n2) never matches the entry (c2, n2, j). -/
theorem keyMatch_false_of_ne {c n c2 n2 : String} {j : Json}
    (hne : ¬ (c = c2 ∧ n = n2)) : keyMatch c n (c2, n2, j) = false := by
  simp only [keyMatch]
  cases hc : (c2 == c) with
  | false => simp
  | true =>
      cases hn : (n2 == n) with
      | false => simp
      | true =>
          exact absurd ⟨(beq_iff_eq.mp hc).symm, (beq_iff_eq.mp hn).symm⟩ hne

/-- Appending a fresh entry makes it the lookup result when the key was absent. -/
theorem lookupStore_append_self {s : Store} {c n : String} {j : Json}
    (h : lookupStore s c n = none) :
    lookupStore (s ++ [(c, n, j)]) c n = some j := by
  induction s with
  | nil => simp [lookupStore, keyMatch]
  | cons e t ih =>
      simp only [lookupStore, List.cons_append] at h ⊢
      cases hk : keyMatch c n e with
      | true => simp [hk] at h
      | false =>
          simp only [hk] at h ⊢
          simp only [Bool.false_eq_true, if_false] at h ⊢
          exact ih h

/-- Appending an entry of a different key does not change a lookup. -/
theorem lookupStore_append_other {s : Store} {c n c2 n2 : String} {j : Json}
    (h : keyMatch c n (c2, n2, j) = false) :
    lookupStore (s ++ [(c2, n2, j)]) c n = lookupStore s c n := by
  induction s with
  | nil => simp [lookupStore, h]
  | cons e t ih =>
      simp only [lookupStore, List.cons_append]
      cases hk : keyMatch c n e <;> simp [hk, ih]

/-- Replacing the content at a present key makes it the lookup result. -/
theorem lookupStore_setStore_self {s : Store} {c n : String} {j v : Json}
    (h : lookupStore s c n = some v) :
    lookupStore (setStore s c n j) c n = some j := by
  induction s with
  | nil => simp [lookupStore] at h
  | cons e t ih =>
      simp only [lookupStore, setStore] at h ⊢
      cases hk : keyMatch c n e with
      | true =>
          have hkj : keyMatch c n (c, n, j) = true := by simp [keyMatch]
          simp [hk, hkj, lookupStore]
      | false =>
          simp only [hk, Bool.false_eq_true, if_false] at h ⊢
          exact ih h

/-- setStore of one key leaves lookups of a different key unchanged. -/
theorem lookupStore_setStore_other {s : Store} {c n c2 n2 : String} {j : Json}
    (hne : ¬ (c = c2 ∧ n = n2)) :
    lookupStore (setStore s c2 n2 j) c n = lookupStore s c n := by
  induction s with
  | nil => rfl
  | cons e t ih =>
      simp only [setStore]
      cases hk2 : keyMatch c2 n2 e with
      | true =>
          have hrep : keyMatch c n (c2, n2, j) = false := keyMatch_false_of_ne hne
          have horig : keyMatch c n e = false := by
            simp only [keyMatch, Bool.and_eq_true, beq_iff_eq] at hk2
            simp only [keyMatch]
            cases hc : (e.1 == c) with
            | false => simp
            | true =>
                cases hn : (e.2.1 == n) with
                | false => simp
                | true =>
                    exact absurd
                      ⟨((beq_iff_eq.mp hc).symm).trans hk2.1,
                       ((beq_iff_eq.mp hn).symm).trans hk2.2⟩ hne
          simp [lookupStore, hrep, horig, ih]
      | false =>
          cases hk : keyMatch c n e <;> simp [lookupStore, hk, ih]

/-- A successful uploadBlob stores the content at its key. -/
theorem uploadBlob_lookup_self {s s2 : Store} {c n : String} {j : Json}
    {ow : Bool} (h : uploadBlob s c n j ow = .ok s2) :
    lookupStore s2 c n = some j := by
  unfold uploadBlob at h
  cases hl : lookupStore s c n with
  | some v =>
      rw [hl] at h
      cases ow with
      | true =>
          simp only [if_true] at h
          cases h
          exact lookupStore_setStore_self hl
      | false => simp at h
  | none =>
      rw [hl] at h
      cases h
      exact lookupStore_append_self hl

/-- A successful uploadBlob leaves other keys unchanged. -/
theorem uploadBlob_lookup_other {s s2 : Store} {c n c2 n2 : String} {j : Json}
    {ow : Bool} (h : uploadBlob s c2 n2 j ow = .ok s2)
    (hne : ¬ (c = c2 ∧ n = n2)) :
    lookupStore s2 c n = lookupStore s c n := by
  unfold uploadBlob at h
  cases hl : lookupStore s c2 n2 with
  | some v =>
      rw [hl] at h
      cases ow with
      | true =>
          simp only [if_true] at h
          cases h
          exact lookupStore_setStore_other hne
      | false => simp at h
  | none =>
      rw [hl] at h
      cases h
      exact lookupStore_append_other (keyMatch_false_of_ne hne)

/-- uploadBlob with overwrite always succeeds. -/
theorem uploadBlob_overwrite_ok (s : Store) (c n : String) (j : Json) :
    ∃ s2, uploadBlob s c n j true = .ok s2 := by
  unfold uploadBlob
  cases lookupStore s c n <;> simp

/-! Run-level helper lemmas. -/

/-- runAfterCreds reports the credential source it was given. -/
theorem runAfterCreds_credSource (blob : Blob) (orc : Oracles) (s : Store)
    (cs : Option CredSource) : (runAfterCreds blob orc s cs).credSource = cs := by
  unfold runAfterCreds
  repeat' split
  all_goals rfl

/-- runAfterCreds never raises the empty-blob error. -/
theorem runAfterCreds_ne_emptyBlob (blob : Blob) (orc : Oracles) (s : Store)
    (cs : Option CredSource) :
    (runAfterCreds blob orc s cs).result ≠ .error .emptyBlob := by
  unfold runAfterCreds
  repeat' split
  all_goals simp

/-- A successful run went through runAfterCreds with some credential source. -/
theorem run_eq_runAfterCreds_of_ok (env : Env) (blob : Blob) (orc : Oracles)
    (s : Store) (hok : (run env blob orc s).result = .ok ()) :
    ∃ cs, run env blob orc s = runAfterCreds blob orc s (some cs) := by
  unfold run at hok ⊢
  cases hp : preStage env blob orc with
  | error pe => rw [hp] at hok; simp at hok
  | ok cs => exact ⟨cs, rfl⟩

/-- An empty blob makes preStage fail, and with a ValueError-class error. -/
theorem preStage_emptyBlob (env : Env) (blob : Blob) (orc : Oracles)
    (hlen : blob.length = 0) :
    ∃ pe, preStage env blob orc = .error pe ∧ pe.1.isValueError = true := by
  unfold preStage
  by_cases h1 : ¬ truthy env.connection_string
  · rw [if_pos h1]; exact ⟨_, rfl, rfl⟩
  · rw [if_neg h1]
    by_cases h2 : ¬ (truthy env.google_credentials_file ||
        truthy env.google_credentials_b64)
    · rw [if_pos h2]; exact ⟨_, rfl, rfl⟩
    · rw [if_neg h2]
      by_cases h3 : ¬ truthy env.google_scopes
      · rw [if_pos h3]; exact ⟨_, rfl, rfl⟩
      · rw [if_neg h3, if_pos hlen]
        exact ⟨_, rfl, rfl⟩

/-- A missing required environment key makes preStage fail with a
configuration error. -/
theorem preStage_config_missing (env : Env) (blob : Blob) (orc : Oracles)
    (hmiss : truthy env.connection_string = false ∨
      (truthy env.google_credentials_file = false ∧
       truthy env.google_credentials_b64 = false) ∨
      truthy env.google_scopes = false) :
    ∃ pe, preStage env blob orc = .error pe ∧ pe.1.isConfigError = true := by
  unfold preStage
  by_cases h1 : ¬ truthy env.connection_string
  · rw [if_pos h1]; exact ⟨_, rfl, rfl⟩
  · rw [if_neg h1]
    by_cases h2 : ¬ (truthy env.google_credentials_file ||
        truthy env.google_credentials_b64)
    · rw [if_pos h2]; exact ⟨_, rfl, rfl⟩
    · rw [if_neg h2]
      by_cases h3 : ¬ truthy env.google_scopes
      · rw [if_pos h3]; exact ⟨_, rfl, rfl⟩
      · exfalso
        simp only [Bool.not_eq_true] at h1 h2 h3
        push_neg at h1 h2 h3
        rcases hmiss with hm | ⟨hmf, hmb⟩ | hm
        · simp [hm] at h1
        · simp [hmf, hmb] at h2
        · simp [hm] at h3

/-- If preStage raised the empty-blob error, every required configuration key
was present. -/
theorem preStage_emptyBlob_inv (env : Env) (blob : Blob) (orc : Oracles)
    (pe : PipeError × Option CredSource)
    (herr : preStage env blob orc = .error pe) (he : pe.1 = .emptyBlob) :
    truthy env.connection_string = true ∧
    (truthy env.google_credentials_file || truthy env.google_credentials_b64) = true ∧
    truthy env.google_scopes = true := by
  unfold preStage at herr
  by_cases h1 : ¬ truthy env.connection_string
  · rw [if_pos h1] at herr
    cases herr
    simp at he
  · rw [if_neg h1] at herr
    by_cases h2 : ¬ (truthy env.google_credentials_file ||
        truthy env.google_credentials_b64)
    · rw [if_pos h2] at herr
      cases herr
      simp at he
    · rw [if_neg h2] at herr
      by_cases h3 : ¬ truthy env.google_scopes
      · rw [if_pos h3] at herr
        cases herr
        simp at he
      · simp only [Bool.not_eq_true] at h1 h2 h3
        push_neg at h1 h2 h3
        exact ⟨by simp [h1], by simp [h2], by simp [h3]⟩

/-- When the invocation reaches the Vision call, preStage succeeds. -/
theorem preStage_of_reaches (env : Env) (blob : Blob) (orc : Oracles)
    (hre : ReachesVisionCall env blob orc) :
    ∃ cs, preStage env blob orc = .ok cs := by
  obtain ⟨h1, h2, h3, h4, h5, h6, h7, himg⟩ := hre
  unfold preStage
  rw [if_neg (by simp [h1]), if_neg (by simp [h2]), if_neg (by simp [h3]),
      if_neg h4, h5]
  cases hb : truthy env.google_credentials_b64 with
  | true =>
      rw [h6 hb]
      exact ⟨.inline, rfl⟩
  | false =>
      rw [h7 hb]
      exact ⟨.file, rfl⟩

/-- When the invocation reaches the Vision call, run is runAfterCreds. -/
theorem run_eq_runAfterCreds_of_reaches (env : Env) (blob : Blob) (orc : Oracles)
    (s : Store) (hre : ReachesVisionCall env blob orc) :
    ∃ cs, run env blob orc s = runAfterCreds blob orc s (some cs) := by
  obtain ⟨cs, hcs⟩ := preStage_of_reaches env blob orc hre
  unfold run
  rw [hcs]
  exact ⟨cs, rfl⟩

/-- On a successful runAfterCreds, the destination holds the new parsed record
and the archive key holds its archived_at-tagged copy. -/
theorem runAfterCreds_ok_lookups (blob : Blob) (orc : Oracles) (s : Store)
    (cs : Option CredSource) (reply : VisionReply) (entry : VisionEntry)
    (rest : List VisionEntry) (hv : orc.visionResult = .ok reply)
    (hr : reply.responses = entry :: rest)
    (hok : (runAfterCreds blob orc s cs).result = .ok ()) :
    lookupStore (runAfterCreds blob orc s cs).store "process" "latest_result.json" =
      some (parsedData entry blob.name (orc.clock 0)) ∧
    lookupStore (runAfterCreds blob orc s cs).store "process-archive"
        ("result_" ++ (orc.clock 2).strftimeCompact ++ ".json") =
      some (archiveData (parsedData entry blob.name (orc.clock 0)) (orc.clock 1)) := by
  unfold runAfterCreds at hok ⊢
  cases hd : orc.decodeImage with
  | error m => simp [hd] at hok
  | ok img =>
      simp only [hd] at hok ⊢
      cases hn : normalizeImage img 95 with
      | error m => simp [hn] at hok
      | ok jp =>
          simp only [hn, hv, hr] at hok ⊢
          cases hu1 : uploadBlob s "process" "latest_result.json"
              (parsedData entry blob.name (orc.clock 0)) true with
          | error m => simp [hu1] at hok
          | ok s1 =>
              simp only [hu1] at hok ⊢
              cases hu2 : uploadBlob s1 "process-archive"
                  ("result_" ++ (orc.clock 2).strftimeCompact ++ ".json")
                  (archiveData (parsedData entry blob.name (orc.clock 0)) (orc.clock 1))
                  false with
              | error m => simp [hu2] at hok
              | ok s2 =>
                  simp only [hu2]
                  constructor
                  · rw [uploadBlob_lookup_other hu2 (by simp)]
                    exact uploadBlob_lookup_self hu1
                  · exact uploadBlob_lookup_self hu2

/-- When the invocation reaches a Vision reply with a first entry, the parsed
record of that entry is published to the destination, whatever the initial
store held. -/
theorem runAfterCreds_published (blob : Blob) (orc : Oracles) (s : Store)
    (cs : Option CredSource) (img : PILImage) (hd : orc.decodeImage = .ok img)
    (hw : (flatten img).mode.jpegWritable = true) (reply : VisionReply)
    (entry : VisionEntry) (rest : List VisionEntry)
    (hv : orc.visionResult = .ok reply) (hr : reply.responses = entry :: rest) :
    publishedContent (runAfterCreds blob orc s cs) =
      some (parsedData entry blob.name (orc.clock 0)) ∧
    (runAfterCreds blob orc s cs).visionCalled = true := by
  have hn : normalizeImage img 95 = .ok (flatten img) := by
    unfold normalizeImage jpegSave
    rw [if_pos hw]
  unfold runAfterCreds
  simp only [hd, hn, hv, hr]
  obtain ⟨s1, hs1⟩ := uploadBlob_overwrite_ok s "process" "latest_result.json"
    (parsedData entry blob.name (orc.clock 0))
  simp only [hs1]
  cases hu2 : uploadBlob s1 "process-archive"
      ("result_" ++ (orc.clock 2).strftimeCompact ++ ".json")
      (archiveData (parsedData entry blob.name (orc.clock 0)) (orc.clock 1))
      false with
  | error m => simp [publishedContent]
  | ok s2 => simp [publishedContent]

/-- If the Vision call raised or returned an empty responses list, the run as
a whole performs no upload, leaves the store untouched, and fails. -/
theorem run_vision_failure_effects (env : Env) (blob : Blob) (orc : Oracles)
    (s : Store)
    (hfail : (∃ m, orc.visionResult = .error m) ∨ orc.visionResult = .ok ⟨[]⟩) :
    (run env blob orc s).uploads = [] ∧ (run env blob orc s).store = s ∧
    ∃ e, (run env blob orc s).result = .error e := by
  have hafter : ∀ cs, (runAfterCreds blob orc s cs).uploads = [] ∧
      (runAfterCreds blob orc s cs).store = s ∧
      ∃ e, (runAfterCreds blob orc s cs).result = .error e := by
    intro cs
    unfold runAfterCreds
    cases hd : orc.decodeImage with
    | error m => exact ⟨rfl, rfl, _, rfl⟩
    | ok img =>
        simp only [hd]
        cases hn : normalizeImage img 95 with
        | error m => simp only [hn]; exact ⟨by trivial, by trivial, _, rfl⟩
        | ok jp =>
            simp only [hn]
            rcases hfail with ⟨m, hm⟩ | hempty
            · simp only [hm]
              exact ⟨by trivial, by trivial, _, rfl⟩
            · simp only [hempty]
              exact ⟨by trivial, by trivial, _, rfl⟩
  unfold run
  cases hp : preStage env blob orc with
  | error pe => exact ⟨rfl, rfl, _, rfl⟩
  | ok cs => exact hafter (some cs)

/-! Claim theorems. -/

/-- Claim C3: every invocation whose event has byte length zero fails with a
ValueError-class validation error and the Vision annotate call is never made
(nothing is uploaded either). -/
theorem c3_empty_blob_never_annotates (env : Env) (blob : Blob) (orc : Oracles)
    (s : Store) (hlen : blob.length = 0) :
    (∃ e, (run env blob orc s).result = .error e ∧ e.isValueError = true) ∧
    (run env blob orc s).visionCalled = false ∧
    (run env blob orc s).uploads = [] := by
  obtain ⟨pe, hpe, hval⟩ := preStage_emptyBlob env blob orc hlen
  unfold run
  rw [hpe]
  exact ⟨⟨pe.1, rfl, hval⟩, rfl, rfl⟩

/-- Witness for C3: a concrete zero-length blob. -/
theorem c3_empty_blob_never_annotates_witness :
    blobEmpty.length = 0 ∧
    ((∃ e, (run envB64 blobEmpty orcFix []).result = .error e ∧
        e.isValueError = true) ∧
     (run envB64 blobEmpty orcFix []).visionCalled = false ∧
     (run envB64 blobEmpty orcFix []).uploads = []) :=
  ⟨rfl, c3_empty_blob_never_annotates envB64 blobEmpty orcFix [] rfl⟩

/-- Claim C9: a missing required configuration key (connection string, both
credential sources, or the scope string) fails the invocation with a
configuration error before the empty-blob check — for every blob, including
zero-length ones — and the empty-blob error can only arise when every
required key is present. -/
theorem c9_config_validation_precedes_event_validation (env : Env)
    (blob : Blob) (orc : Oracles) (s : Store) :
    (truthy env.connection_string = false ∨
     (truthy env.google_credentials_file = false ∧
      truthy env.google_credentials_b64 = false) ∨
     truthy env.google_scopes = false →
       ∃ e, (run env blob orc s).result = .error e ∧ e.isConfigError = true ∧
         (run env blob orc s).visionCalled = false ∧
         (run env blob orc s).uploads = []) ∧
    ((run env blob orc s).result = .error .emptyBlob →
       truthy env.connection_string = true ∧
       (truthy env.google_credentials_file ||
        truthy env.google_credentials_b64) = true ∧
       truthy env.google_scopes = true) := by
  constructor
  · intro hmiss
    obtain ⟨pe, hpe, hcfg⟩ := preStage_config_missing env blob orc hmiss
    unfold run
    rw [hpe]
    exact ⟨pe.1, rfl, hcfg, rfl, rfl⟩
  · intro hemp
    unfold run at hemp
    cases hp : preStage env blob orc with
    | error pe =>
        rw [hp] at hemp
        simp only [Except.error.injEq] at hemp
        exact preStage_emptyBlob_inv env blob orc pe hp hemp
    | ok cs =>
        rw [hp] at hemp
        exact absurd hemp (runAfterCreds_ne_emptyBlob blob orc s (some cs))

/-- Witness for C9: missing scope string beats an empty blob; with full
configuration, an empty blob yields the empty-blob error and hence all keys
were present. -/
theorem c9_config_validation_precedes_event_validation_witness :
    (truthy envNoScopes.google_scopes = false ∧ blobEmpty.length = 0 ∧
     ∃ e, (run envNoScopes blobEmpty orcFix []).result = .error e ∧
       e.isConfigError = true ∧
       (run envNoScopes blobEmpty orcFix []).visionCalled = false ∧
       (run envNoScopes blobEmpty orcFix []).uploads = []) ∧
    (truthy envB64.connection_string = true ∧
     (truthy envB64.google_credentials_file ||
      truthy envB64.google_credentials_b64) = true ∧
     truthy envB64.google_scopes = true) :=
  ⟨⟨rfl, rfl,
    (c9_config_validation_precedes_event_validation envNoScopes blobEmpty
      orcFix []).1 (Or.inr (Or.inr rfl))⟩,
   (c9_config_validation_precedes_event_validation envB64 blobEmpty
      orcFix []).2 rfl⟩

/-- Claim C5: a decodable image whose mode carries an alpha channel is
composited onto an opaque white background, each output channel being
foreground * alpha + white * (1 - alpha), before the alpha channel is
dropped; and whenever normalization succeeds its output mode has no alpha
channel. -/
theorem c5_alpha_flattened_onto_white (img : PILImage) :
    (img.mode.hasAlpha = true →
      (flatten img).mode = .RGB ∧
      ∀ x y, (flatten img).px x y =
        ⟨(img.px x y).r * (img.px x y).a + 255 * (1 - (img.px x y).a),
         (img.px x y).g * (img.px x y).a + 255 * (1 - (img.px x y).a),
         (img.px x y).b * (img.px x y).a + 255 * (1 - (img.px x y).a), 1⟩) ∧
    (∀ q out, normalizeImage img q = .ok out → out.mode.hasAlpha = false) := by
  constructor
  · intro h
    have hm : img.mode = .RGBA ∨ img.mode = .LA := by
      revert h
      cases img.mode <;> simp [PILMode.hasAlpha]
    unfold flatten
    rw [if_pos hm]
    exact ⟨rfl, fun x y => rfl⟩
  · intro q out hok
    unfold normalizeImage jpegSave at hok
    by_cases hw : (flatten img).mode.jpegWritable = true
    · rw [if_pos hw] at hok
      injection hok with h2
      subst h2
      revert hw
      cases (flatten img).mode <;> simp [PILMode.jpegWritable, PILMode.hasAlpha]
    · rw [if_neg hw] at hok
      simp at hok

/-- Witness for C5: the half-transparent RGBA fixture flattens to RGB on
white and JPEG-saves without an alpha channel. -/
theorem c5_alpha_flattened_onto_white_witness :
    imgAlphaFix.mode.hasAlpha = true ∧
    (flatten imgAlphaFix).mode = .RGB ∧
    (flatten imgAlphaFix).px 0 0 =
      ⟨102 * (1/2 : ℚ) + 255 * (1 - 1/2), 0 * (1/2 : ℚ) + 255 * (1 - 1/2),
       255 * (1/2 : ℚ) + 255 * (1 - 1/2), 1⟩ ∧
    (flatten imgAlphaFix).mode.hasAlpha = false :=
  ⟨rfl,
   ((c5_alpha_flattened_onto_white imgAlphaFix).1 rfl).1,
   ((c5_alpha_flattened_onto_white imgAlphaFix).1 rfl).2 0 0,
   (c5_alpha_flattened_onto_white imgAlphaFix).2 95 (flatten imgAlphaFix) rfl⟩

/-- Claim C8: whenever the Vision annotate call raises, nothing is uploaded,
the store is untouched, and the invocation fails — no partial success. -/
theorem c8_failed_annotation_publishes_nothing (env : Env) (blob : Blob)
    (orc : Oracles) (s : Store) (m : String)
    (h : orc.visionResult = .error m) :
    (run env blob orc s).uploads = [] ∧ (run env blob orc s).store = s ∧
    ∃ e, (run env blob orc s).result = .error e :=
  run_vision_failure_effects env blob orc s (Or.inl ⟨m, h⟩)

/-- Witness for C8: a concrete 503 from the service, with a record already at
the destination, uploads nothing and leaves the store as it was. -/
theorem c8_failed_annotation_publishes_nothing_witness :
    orcVisionErr.visionResult = .error "503 Service Unavailable" ∧
    (run envB64 blobFix orcVisionErr destR1).uploads = [] ∧
    (run envB64 blobFix orcVisionErr destR1).store = destR1 ∧
    ∃ e, (run envB64 blobFix orcVisionErr destR1).result = .error e :=
  ⟨rfl, c8_failed_annotation_publishes_nothing envB64 blobFix orcVisionErr
    destR1 "503 Service Unavailable" rfl⟩

/-- Claim C2: for a Vision reply whose first response entry is given, the
persisted destination record maps each text hit to exactly one text object
and each label hit to exactly one label/confidence object, in
service-returned order, with the score passed through unmodified, alongside
the blob name and the invocation timestamp. -/
theorem c2_hits_map_one_to_one (env : Env) (blob : Blob) (orc : Oracles)
    (s : Store) (reply : VisionReply) (entry : VisionEntry)
    (rest : List VisionEntry) (hre : ReachesVisionCall env blob orc)
    (hv : orc.visionResult = .ok reply) (hr : reply.responses = entry :: rest) :
    publishedContent (run env blob orc s) =
      some (Json.obj
        [("text_annotations", Json.arr (entry.textAnnotations.map
            (fun t => Json.obj [("text", Json.str t.description)]))),
         ("label_annotations", Json.arr (entry.labelAnnotations.map
            (fun l => Json.obj [("label", Json.str l.description),
                                ("confidence", Json.num l.score)]))),
         ("processed_image", Json.str blob.name),
         ("processed_at", Json.str (orc.clock 0).isoformat)]) := by
  obtain ⟨cs, hcs⟩ := run_eq_runAfterCreds_of_reaches env blob orc s hre
  obtain ⟨img, hd, hw⟩ := hre.2.2.2.2.2.2.2
  rw [hcs]
  exact (runAfterCreds_published blob orc s (some cs) img hd hw reply entry
    rest hv hr).1

/-- Witness for C2: the spec scenario — one label (cat, 0.92), no text —
persists label_annotations with the single cat object and empty
text_annotations. -/
theorem c2_hits_map_one_to_one_witness :
    publishedContent (run envB64 blobFix orcFix []) =
      some (Json.obj
        [("text_annotations", Json.arr []),
         ("label_annotations", Json.arr
            [Json.obj [("label", Json.str "cat"),
                       ("confidence", Json.num 0.92)]]),
         ("processed_image", Json.str "image/photo.png"),
         ("processed_at", Json.str tFix.isoformat)]) :=
  c2_hits_map_one_to_one envB64 blobFix orcFix [] ⟨[entryCat]⟩ entryCat []
    ⟨rfl, rfl, rfl, by decide, rfl, fun _ => rfl, fun _ => rfl,
     ⟨imgFix, rfl, rfl⟩⟩ rfl rfl

/-- Claim C10: the content published to the destination record location is
independent of the store's prior contents — two invocations identical in
environment, blob, oracle responses and clock publish the same record
whatever either store held beforehand. -/
theorem c10_published_record_independent_of_store (env : Env) (blob : Blob)
    (orc : Oracles) (s1 s2 : Store) :
    publishedContent (run env blob orc s1) =
      publishedContent (run env blob orc s2) := by
  have hafter : ∀ cs, publishedContent (runAfterCreds blob orc s1 cs) =
      publishedContent (runAfterCreds blob orc s2 cs) := by
    intro cs
    unfold runAfterCreds
    cases hd : orc.decodeImage with
    | error m => rfl
    | ok img =>
        simp only [hd]
        cases hn : normalizeImage img 95 with
        | error m => rfl
        | ok jp =>
            simp only [hn]
            cases hv : orc.visionResult with
            | error m => rfl
            | ok reply =>
                simp only [hv]
                cases hr : reply.responses with
                | nil => rfl
                | cons entry rest =>
                    simp only [hr]
                    obtain ⟨u1, hu1⟩ := uploadBlob_overwrite_ok s1 "process"
                      "latest_result.json" (parsedData entry blob.name (orc.clock 0))
                    obtain ⟨u2, hu2⟩ := uploadBlob_overwrite_ok s2 "process"
                      "latest_result.json" (parsedData entry blob.name (orc.clock 0))
                    simp only [hu1, hu2]
                    cases uploadBlob u1 "process-archive"
                        ("result_" ++ (orc.clock 2).strftimeCompact ++ ".json")
                        (archiveData (parsedData entry blob.name (orc.clock 0))
                          (orc.clock 1)) false <;>
                      cases uploadBlob u2 "process-archive"
                          ("result_" ++ (orc.clock 2).strftimeCompact ++ ".json")
                          (archiveData (parsedData entry blob.name (orc.clock 0))
                            (orc.clock 1)) false <;>
                        simp [publishedContent]
  unfold run
  cases hp : preStage env blob orc with
  | error pe => rfl
  | ok cs => exact hafter (some cs)

/-- Claim C1 counterexample: the destination already holds record R1 and the
invocation completes, yet the final store holds no archive copy of R1 — its
only entries are the new destination record and an archive copy of the NEW
record (tagged archived_at), neither of which equals R1.  The predecessor is
overwritten without a backup. -/
theorem c1_predecessor_not_archived_counterexample :
    lookupStore destR1 "process" "latest_result.json" = some (Json.str "R1") ∧
    (run envB64 blobFix orcFix destR1).result = .ok () ∧
    (run envB64 blobFix orcFix destR1).store =
      [("process", "latest_result.json", parsedData entryCat blobFix.name tFix),
       ("process-archive", "result_" ++ tFix.strftimeCompact ++ ".json",
        archiveData (parsedData entryCat blobFix.name tFix) tFix)] ∧
    parsedData entryCat blobFix.name tFix ≠ Json.str "R1" ∧
    archiveData (parsedData entryCat blobFix.name tFix) tFix ≠ Json.str "R1" :=
  ⟨rfl, rfl, rfl, fun h => Json.noConfusion h, fun h => Json.noConfusion h⟩

/-- Claim C1 amended: after a completed publish the destination holds the new
record R2 and the archive holds, under the timestamped key, a copy of R2
extended with an archived_at tag — the previously stored record is replaced
without being read or archived. -/
theorem c1_amended_archive_holds_new_record (env : Env) (blob : Blob)
    (orc : Oracles) (s : Store) (reply : VisionReply) (entry : VisionEntry)
    (rest : List VisionEntry) (hv : orc.visionResult = .ok reply)
    (hr : reply.responses = entry :: rest)
    (hok : (run env blob orc s).result = .ok ()) :
    lookupStore (run env blob orc s).store "process" "latest_result.json" =
      some (parsedData entry blob.name (orc.clock 0)) ∧
    lookupStore (run env blob orc s).store "process-archive"
        ("result_" ++ (orc.clock 2).strftimeCompact ++ ".json") =
      some (archiveData (parsedData entry blob.name (orc.clock 0)) (orc.clock 1)) := by
  obtain ⟨cs, hcs⟩ := run_eq_runAfterCreds_of_ok env blob orc s hok
  rw [hcs] at hok ⊢
  exact runAfterCreds_ok_lookups blob orc s (some cs) reply entry rest hv hr hok

/-- Witness for the amended C1 at the concrete fixture run over a destination
already holding R1. -/
theorem c1_amended_archive_holds_new_record_witness :
    lookupStore (run envB64 blobFix orcFix destR1).store "process"
        "latest_result.json" =
      some (parsedData entryCat blobFix.name tFix) ∧
    lookupStore (run envB64 blobFix orcFix destR1).store "process-archive"
        ("result_" ++ tFix.strftimeCompact ++ ".json") =
      some (archiveData (parsedData entryCat blobFix.name tFix) tFix) :=
  c1_amended_archive_holds_new_record envB64 blobFix orcFix destR1
    ⟨[entryCat]⟩ entryCat [] rfl rfl rfl

/-- Claim C4 counterexample: both credential sources are configured, the
inline base64 value fails to decode while the file source would succeed, yet
the invocation fails with the credential error after attempting only the
inline source — no fall-through to the file. -/
theorem c4_no_fallthrough_counterexample :
    truthy envBoth.google_credentials_b64 = true ∧
    truthy envBoth.google_credentials_file = true ∧
    orcBadInline.b64CredsResult = .error "Invalid base64-encoded string" ∧
    orcBadInline.fileCredsResult = .ok () ∧
    (run envBoth blobFix orcBadInline []).result =
      .error (.credentialError "Invalid base64-encoded string") ∧
    (run envBoth blobFix orcBadInline []).credSource = some .inline :=
  ⟨rfl, rfl, rfl, rfl, rfl, rfl⟩

/-- Claim C4 amended: the presence of the inline base64 value decides the
source — when it is set it is the only source attempted and its failure is
fatal with no fallback; the file source is attempted exactly when the inline
value is unset; absence of both is rejected by configuration validation. -/
theorem c4_amended_inline_presence_decides (env : Env) (blob : Blob)
    (orc : Oracles) (s : Store)
    (h1 : truthy env.connection_string = true)
    (h2 : (truthy env.google_credentials_file ||
           truthy env.google_credentials_b64) = true)
    (h3 : truthy env.google_scopes = true)
    (h4 : blob.length ≠ 0)
    (h5 : orc.blobServiceInit = .ok ()) :
    (truthy env.google_credentials_b64 = true →
       ∀ m, orc.b64CredsResult = .error m →
         (run env blob orc s).result = .error (.credentialError m) ∧
         (run env blob orc s).credSource = some CredSource.inline) ∧
    (truthy env.google_credentials_b64 = false →
       ∀ m, orc.fileCredsResult = .error m →
         (run env blob orc s).result = .error (.credentialError m) ∧
         (run env blob orc s).credSource = some CredSource.file) ∧
    (truthy env.google_credentials_b64 = true →
       orc.b64CredsResult = .ok () →
       (run env blob orc s).credSource = some CredSource.inline) ∧
    (truthy env.google_credentials_b64 = false →
       orc.fileCredsResult = .ok () →
       (run env blob orc s).credSource = some CredSource.file) := by
  refine ⟨?_, ?_, ?_, ?_⟩
  · intro hb m hm
    unfold run preStage
    rw [if_neg (by simp [h1]), if_neg (by simp [h2]), if_neg (by simp [h3]),
        if_neg h4, h5, hb, hm]
    exact ⟨rfl, rfl⟩
  · intro hb m hm
    unfold run preStage
    rw [if_neg (by simp [h1]), if_neg (by simp [h2]), if_neg (by simp [h3]),
        if_neg h4, h5, hb, hm]
    exact ⟨rfl, rfl⟩
  · intro hb hokc
    unfold run preStage
    rw [if_neg (by simp [h1]), if_neg (by simp [h2]), if_neg (by simp [h3]),
        if_neg h4, h5, hb, hokc]
    exact runAfterCreds_credSource blob orc s (some CredSource.inline)
  · intro hb hokc
    unfold run preStage
    rw [if_neg (by simp [h1]), if_neg (by simp [h2]), if_neg (by simp [h3]),
        if_neg h4, h5, hb, hokc]
    exact runAfterCreds_credSource blob orc s (some CredSource.file)

/-- Witness for the amended C4: the inline source is attempted and fatal when
set and malformed; the file source is the one attempted when inline is unset. -/
theorem c4_amended_inline_presence_decides_witness :
    ((run envBoth blobFix orcBadInline []).result =
       .error (.credentialError "Invalid base64-encoded string") ∧
     (run envBoth blobFix orcBadInline []).credSource =
       some CredSource.inline) ∧
    (run envFileOnly blobFix orcFix []).credSource = some CredSource.file :=
  ⟨(c4_amended_inline_presence_decides envBoth blobFix orcBadInline []
      rfl rfl rfl (by decide) rfl).1 rfl "Invalid base64-encoded string" rfl,
   (c4_amended_inline_presence_decides envFileOnly blobFix orcFix []
      rfl rfl rfl (by decide) rfl).2.2.2 rfl rfl⟩

/-- Claim C6 counterexample: a Vision reply whose single response entry has
no entries for either requested feature does NOT fail the invocation — the
run succeeds and persists a record with empty annotation lists. -/
theorem c6_no_hits_still_persists_counterexample :
    orcNoHits.visionResult = .ok ⟨[entryNone]⟩ ∧
    entryNone.textAnnotations = [] ∧
    entryNone.labelAnnotations = [] ∧
    (run envB64 blobFix orcNoHits []).result = .ok () ∧
    publishedContent (run envB64 blobFix orcNoHits []) =
      some (parsedData entryNone blobFix.name tFix) :=
  ⟨rfl, rfl, rfl, rfl, rfl⟩

/-- Claim C6 amended: once the Vision call is reached, the invocation fails
exactly when the remote call raises or the reply's responses list is empty;
a reply with a first entry is persisted even when that entry has no hits for
either requested feature. -/
theorem c6_amended_fails_only_on_empty_responses (env : Env) (blob : Blob)
    (orc : Oracles) (s : Store) (hre : ReachesVisionCall env blob orc) :
    (∀ m, orc.visionResult = .error m →
       (run env blob orc s).result = .error (.visionError m) ∧
       (run env blob orc s).uploads = []) ∧
    (orc.visionResult = .ok ⟨[]⟩ →
       (run env blob orc s).result = .error .emptyVisionResponse ∧
       (run env blob orc s).uploads = []) ∧
    (∀ reply entry rest, orc.visionResult = .ok reply →
       reply.responses = entry :: rest →
       publishedContent (run env blob orc s) =
         some (parsedData entry blob.name (orc.clock 0))) := by
  obtain ⟨cs, hcs⟩ := run_eq_runAfterCreds_of_reaches env blob orc s hre
  obtain ⟨img, hd, hw⟩ := hre.2.2.2.2.2.2.2
  have hn : normalizeImage img 95 = .ok (flatten img) := by
    unfold normalizeImage jpegSave
    rw [if_pos hw]
  refine ⟨?_, ?_, ?_⟩
  · intro m hm
    rw [hcs]
    unfold runAfterCreds
    simp only [hd, hn, hm]
    exact ⟨by trivial, by trivial⟩
  · intro hm
    rw [hcs]
    unfold runAfterCreds
    simp only [hd, hn, hm]
    exact ⟨by trivial, by trivial⟩
  · intro reply entry rest hv hr
    rw [hcs]
    exact (runAfterCreds_published blob orc s (some cs) img hd hw reply entry
      rest hv hr).1

/-- Witness for the amended C6: a raising call fails with the service error,
an empty responses list fails with the empty-response error, and a no-hits
entry is persisted. -/
theorem c6_amended_fails_only_on_empty_responses_witness :
    ((run envB64 blobFix orcVisionErr []).result =
       .error (.visionError "503 Service Unavailable") ∧
     (run envB64 blobFix orcVisionErr []).uploads = []) ∧
    ((run envB64 blobFix orcEmptyReplies []).result =
       .error .emptyVisionResponse ∧
     (run envB64 blobFix orcEmptyReplies []).uploads = []) ∧
    publishedContent (run envB64 blobFix orcNoHits []) =
      some (parsedData entryNone blobFix.name tFix) :=
  ⟨(c6_amended_fails_only_on_empty_responses envB64 blobFix orcVisionErr []
      ⟨rfl, rfl, rfl, by decide, rfl, fun _ => rfl, fun _ => rfl,
       ⟨imgFix, rfl, rfl⟩⟩).1 "503 Service Unavailable" rfl,
   (c6_amended_fails_only_on_empty_responses envB64 blobFix orcEmptyReplies []
      ⟨rfl, rfl, rfl, by decide, rfl, fun _ => rfl, fun _ => rfl,
       ⟨imgFix, rfl, rfl⟩⟩).2.1 rfl,
   (c6_amended_fails_only_on_empty_responses envB64 blobFix orcNoHits []
      ⟨rfl, rfl, rfl, by decide, rfl, fun _ => rfl, fun _ => rfl,
       ⟨imgFix, rfl, rfl⟩⟩).2.2 ⟨[entryNone]⟩ entryNone [] rfl rfl⟩

/-- Claim C7 counterexample: the archive record written by a completed
invocation carries a fifth field archived_at, so its JSON shape is NOT
identical to the destination record's four fields. -/
theorem c7_archive_shape_differs_counterexample :
    (run envB64 blobFix orcFix destR1).result = .ok () ∧
    lookupStore (run envB64 blobFix orcFix destR1).store "process-archive"
        ("result_" ++ tFix.strftimeCompact ++ ".json") =
      some (archiveData (parsedData entryCat blobFix.name tFix) tFix) ∧
    (archiveData (parsedData entryCat blobFix.name tFix) tFix).fieldNames =
      ["text_annotations", "label_annotations", "processed_image",
       "processed_at", "archived_at"] ∧
    (parsedData entryCat blobFix.name tFix).fieldNames =
      ["text_annotations", "label_annotations", "processed_image",
       "processed_at"] ∧
    (archiveData (parsedData entryCat blobFix.name tFix) tFix).fieldNames ≠
      (parsedData entryCat blobFix.name tFix).fieldNames := by
  refine ⟨rfl, rfl, rfl, rfl, ?_⟩
  decide

/-- Claim C7 amended: the archive record's shape is the destination record's
four fields plus a trailing archived_at field, stored under a key
parameterized by a UTC timestamp at full-second resolution (the strftime
format drops the microsecond field). -/
theorem c7_amended_archive_shape_and_key (env : Env) (blob : Blob)
    (orc : Oracles) (s : Store) (reply : VisionReply) (entry : VisionEntry)
    (rest : List VisionEntry) (hv : orc.visionResult = .ok reply)
    (hr : reply.responses = entry :: rest)
    (hok : (run env blob orc s).result = .ok ()) :
    lookupStore (run env blob orc s).store "process-archive"
        ("result_" ++ (orc.clock 2).strftimeCompact ++ ".json") =
      some (archiveData (parsedData entry blob.name (orc.clock 0)) (orc.clock 1)) ∧
    (archiveData (parsedData entry blob.name (orc.clock 0)) (orc.clock 1)).fieldNames =
      (parsedData entry blob.name (orc.clock 0)).fieldNames ++ ["archived_at"] ∧
    (∀ t u : DateTime, t.year = u.year → t.month = u.month → t.day = u.day →
       t.hour = u.hour → t.minute = u.minute → t.second = u.second →
       t.strftimeCompact = u.strftimeCompact) := by
  refine ⟨?_, ?_, ?_⟩
  · obtain ⟨cs, hcs⟩ := run_eq_runAfterCreds_of_ok env blob orc s hok
    rw [hcs] at hok ⊢
    exact (runAfterCreds_ok_lookups blob orc s (some cs) reply entry rest
      hv hr hok).2
  · simp [archiveData, parsedData, Json.fieldNames]
  · intro t u e1 e2 e3 e4 e5 e6
    unfold DateTime.strftimeCompact
    rw [e1, e2, e3, e4, e5, e6]

/-- Witness for the amended C7 at the concrete fixture run. -/
theorem c7_amended_archive_shape_and_key_witness :
    lookupStore (run envB64 blobFix orcFix destR1).store "process-archive"
        ("result_" ++ tFix.strftimeCompact ++ ".json") =
      some (archiveData (parsedData entryCat blobFix.name tFix) tFix) ∧
    (archiveData (parsedData entryCat blobFix.name tFix) tFix).fieldNames =
      (parsedData entryCat blobFix.name tFix).fieldNames ++ ["archived_at"] ∧
    DateTime.strftimeCompact ⟨2025, 1, 2, 3, 4, 5, 0⟩ =
      DateTime.strftimeCompact ⟨2025, 1, 2, 3, 4, 5, 999999⟩ :=
  ⟨(c7_amended_archive_shape_and_key envB64 blobFix orcFix destR1
      ⟨[entryCat]⟩ entryCat [] rfl rfl rfl).1,
   (c7_amended_archive_shape_and_key envB64 blobFix orcFix destR1
      ⟨[entryCat]⟩ entryCat [] rfl rfl rfl).2.1,
   (c7_amended_archive_shape_and_key envB64 blobFix orcFix destR1
      ⟨[entryCat]⟩ entryCat [] rfl rfl rfl).2.2
     ⟨2025, 1, 2, 3, 4, 5, 0⟩ ⟨2025, 1, 2, 3, 4, 5, 999999⟩
     rfl rfl rfl rfl rfl rfl⟩
